import Mathlib

/-!
Verification of the streaming response pipeline of Basic-Agent-Chat-Loop.

This file shallowly embeds the components of
`src/basic_agent_chat_loop/components/` that the specification's claims
are about:

* `output_mode.py`     — `OutputState`, `determine_output_state`
* `response_renderer.py` — `ResponseRenderer` (header / streaming / final
  rendering; terminal writes are modelled as an explicit output trace)
* `harmony_processor.py` — `HarmonyProcessor.format_for_display`
* `response_streamer.py` — `ResponseStreamer.stream_agent_response`
  (the per-query orchestration cycle, as a pure state-passing function)

Components of this repository whose sources are absent here (only their
unit tests and callers are present) — `session_state.py`,
`token_tracker.py`, `usage_extractor.py`, `streaming_event_parser.py` —
are modelled from the specification's words; each such definition carries
a doc comment starting `Modelled from the spec:`.

Python `int` is modelled by `Int` (arbitrary precision, deltas may be
negative); Python `str` by `String`; Python `dict[str, T]` by
`List (String × T)` with `List.lookup` (keys are unique in every payload
the code builds); Python `None`-able values by `Option`. Side effects on
the terminal are modelled as explicit lists of output items.
-/

/-! ## output_mode.py -/

/-- `OutputState` from `output_mode.py`: STREAMING prints chunks as they
arrive, BUFFERING collects them and renders once at the end. -/
inductive OutputState where
  | STREAMING
  | BUFFERING
deriving DecidableEq, Repr

/-- `OutputState.should_buffer`: true iff the state is BUFFERING. -/
def OutputState.should_buffer (s : OutputState) : Bool :=
  s = OutputState.BUFFERING

/-- `OutputState.should_stream`: true iff the state is STREAMING. -/
def OutputState.should_stream (s : OutputState) : Bool :=
  s = OutputState.STREAMING

/-- `determine_output_state(console, harmony_processor)`: BUFFERING iff a
Rich console or a Harmony processor is present (`is not None`), else
STREAMING.  The two arguments stand for the optional collaborator
objects; only their presence is inspected, so they are type parameters. -/
def determine_output_state {γ η : Type} (console : Option γ)
    (harmony_processor : Option η) : OutputState :=
  if console.isSome || harmony_processor.isSome then OutputState.BUFFERING
  else OutputState.STREAMING

/-! ## response_renderer.py -/

/-- One item written to the terminal by the renderer.  `separator` stands
for the two `print` calls producing the blank line and the
`─── Final Response ───` rule; `richMarkdown` for a
`console.print(Markdown ...)` call; `plainText`/`streamText` for plain
colorized `print` calls. -/
inductive RenderOut where
  | header (agent_name : String)
  | streamText (text : String)
  | separator
  | richMarkdown (text : String)
  | plainText (text : String)
deriving DecidableEq, Repr

/-- `ResponseRenderer` state: the fields of `ResponseRenderer.__init__`
that govern rendering.  `console_present` records whether a Rich console
was supplied; `output_state` is computed once at construction. -/
structure ResponseRenderer where
  agent_name : String
  console_present : Bool
  harmony_present : Bool
  output_state : OutputState
deriving DecidableEq, Repr

/-- `ResponseRenderer.__init__`: stores the collaborators and computes
`output_state = determine_output_state(console, harmony_processor)` once. -/
def ResponseRenderer.init {γ η : Type} (agent_name : String)
    (console : Option γ) (harmony_processor : Option η) : ResponseRenderer :=
  { agent_name := agent_name
    console_present := console.isSome
    harmony_present := harmony_processor.isSome
    output_state := determine_output_state console harmony_processor }

/-- `ResponseRenderer.render_agent_header`: always prints the header. -/
def ResponseRenderer.render_agent_header (r : ResponseRenderer) :
    List RenderOut :=
  [RenderOut.header r.agent_name]

/-- `ResponseRenderer.render_streaming_text`: prints the chunk
immediately unless the output state buffers, in which case it is a
no-op (the orchestrator already accumulated the chunk upstream). -/
def ResponseRenderer.render_streaming_text (r : ResponseRenderer)
    (text : String) : List RenderOut :=
  if r.output_state.should_buffer then []
  else [RenderOut.streamText text]

/-- `ResponseRenderer.should_skip_streaming_display`: true iff in
BUFFERING mode. -/
def ResponseRenderer.should_skip_streaming_display (r : ResponseRenderer) :
    Bool :=
  r.output_state.should_buffer

/-- Python `str.strip()`: the string with leading and trailing
whitespace removed (an executable model of `String.trim` whose
reductions the kernel can carry out). -/
def pystrip (s : String) : String :=
  String.mk
    (((s.data.dropWhile Char.isWhitespace).reverse.dropWhile
      Char.isWhitespace).reverse)

/-- `ResponseRenderer.render_final_response(display_text,
first_token_received)`: no-op when `display_text.strip()` is empty;
otherwise prints the visual separator exactly when streaming occurred
(`first_token_received`) in BUFFERING mode, then renders via rich
markdown when a console is present, else as plain colorized text. -/
def ResponseRenderer.render_final_response (r : ResponseRenderer)
    (display_text : String) (first_token_received : Bool) : List RenderOut :=
  if pystrip display_text = "" then []
  else
    (if first_token_received && r.output_state.should_buffer then
      [RenderOut.separator]
    else []) ++
    (if r.console_present then [RenderOut.richMarkdown display_text]
     else [RenderOut.plainText display_text])

/-! ## harmony_processor.py -/

/-- The dict returned by `HarmonyProcessor.process_response`: the raw
`text`, the two detection flags, and the channel dict. -/
structure ProcessedResponse where
  text : String
  has_reasoning : Bool
  has_tools : Bool
  channels : List (String × String)
deriving DecidableEq, Repr

/-- Python `channels.get(key)` on the channel dict. -/
def channelsGet (channels : List (String × String)) (key : String) :
    Option String :=
  channels.lookup key

/-- Python truthiness of an optional string: `None` and `""` are falsy. -/
def pyTruthy (o : Option String) : Bool :=
  match o with
  | some s => if s = "" then false else true
  | none => false

/-- Python `a or b` on optional strings: `a` when truthy, else `b`. -/
def pyOr (a b : Option String) : Option String :=
  if pyTruthy a then a else b

/-- `HarmonyProcessor.format_for_display(processed_response)`.  The first
argument is the processor's `show_detailed_thinking` attribute.  With it
off, returns `channels.get("final", processed_response["text"])`.  With
it on, builds the labeled sections exactly as the source does and joins
them with newlines. -/
def HarmonyProcessor.format_for_display (show_detailed_thinking : Bool)
    (processed_response : ProcessedResponse) : String :=
  let channels := processed_response.channels
  if !show_detailed_thinking then
    (channelsGet channels "final").getD processed_response.text
  else
    let lines : List String := []
    let reasoning :=
      pyOr (pyOr (channelsGet channels "reasoning")
        (channelsGet channels "thinking"))
        (channelsGet channels "analysis")
    let lines :=
      if pyTruthy reasoning then
        lines ++ ["💭 [REASONING]", reasoning.getD "", ""]
      else lines
    let lines :=
      if (channelsGet channels "analysis").isSome &&
          (channelsGet channels "reasoning").isSome then
        lines ++ ["📊 [ANALYSIS]", (channelsGet channels "analysis").getD "", ""]
      else lines
    let lines :=
      if (channelsGet channels "commentary").isSome then
        lines ++
          ["📝 [COMMENTARY]", (channelsGet channels "commentary").getD "", ""]
      else lines
    let lines :=
      if processed_response.has_tools &&
          (channelsGet channels "tool_call").isSome then
        lines ++
          ["🔧 [TOOL CALL]", (channelsGet channels "tool_call").getD "", ""]
      else lines
    let final_response :=
      (channelsGet channels "final").getD processed_response.text
    let lines :=
      if pyTruthy (some final_response) then
        lines ++ ["💬 [RESPONSE]", final_response]
      else lines
    String.intercalate "\n" lines

/-! ## session_state.py (absent from src/; modelled from the spec) -/

/-- Modelled from the spec: the Session Accumulator (`SessionState` in
`session_state.py`, present here only through its unit tests and its
callers in `response_streamer.py`).  Fields the streaming pipeline
touches: the query counter, the last-seen cumulative token totals, the
markdown transcript, and the last query/response texts. -/
structure SessionState where
  query_count : Nat
  last_accumulated_input : Int
  last_accumulated_output : Int
  conversation_markdown : List String
  last_query : String
  last_response : String
deriving DecidableEq, Repr

/-- Modelled from the spec: `SessionState.update_accumulated_usage`
(source file absent) computes the deltas of the reported cumulative
totals against the last-seen cumulative totals, stores the reported
totals as the new last-seen values, and returns the (possibly negative)
deltas, exactly as its unit tests
(`test_session_state.py::TestAccumulatedUsage`,
`TestEdgeCases::test_negative_accumulated_usage`) assert. -/
def SessionState.update_accumulated_usage (s : SessionState)
    (current_input current_output : Int) : (Int × Int) × SessionState :=
  ((current_input - s.last_accumulated_input,
    current_output - s.last_accumulated_output),
   { s with
      last_accumulated_input := current_input
      last_accumulated_output := current_output })

/-- Modelled from the spec: `SessionState.increment_query_count` (source
file absent) increments the monotone per-session query counter and
returns the new count, which the streamer uses as the transcript entry's
query number. -/
def SessionState.increment_query_count (s : SessionState) :
    Nat × SessionState :=
  (s.query_count + 1, { s with query_count := s.query_count + 1 })

/-- Modelled from the spec: `SessionState.update_last_response` (source
file absent) records the display text shown to the user for
copy-to-clipboard style operations. -/
def SessionState.update_last_response (s : SessionState) (text : String) :
    SessionState :=
  { s with last_response := text }

/-! ## token_tracker.py (absent from src/; modelled from the spec) -/

/-- Modelled from the spec: the `TokenTracker` running session totals
(source file absent; behaviour fixed by `test_token_tracker.py`). -/
structure TokenTracker where
  total_input_tokens : Int
  total_output_tokens : Int
deriving DecidableEq, Repr

/-- Modelled from the spec: `TokenTracker.add_usage` (source file absent)
adds the given input/output token counts to the running totals, as
`test_token_tracker.py::test_add_usage` asserts. -/
def TokenTracker.add_usage (t : TokenTracker)
    (input_tokens output_tokens : Int) : TokenTracker :=
  { total_input_tokens := t.total_input_tokens + input_tokens
    total_output_tokens := t.total_output_tokens + output_tokens }

/-! ## response_streamer.py — the orchestration cycle

`ResponseStreamer.stream_agent_response` is an async method whose side
effects are terminal writes and mutations of the session state, the
token tracker and the streamer's own counters.  It is embedded as a pure
function from the pre-query state and the agent's observed behaviour to
the post-query state plus explicit output traces.  The streamer is
parameterized by its collaborators exactly as `__init__` receives them:
the event parser (`parse_event`), the renderer, the optional Harmony
post-processor (abstracted to its raw-text → display-text effect, per
the §4.3 pluggable contract), and the usage extractor (a function of the
last stored response object).  Wall-clock duration and the transcript
timestamp are opaque inputs.  Terminal writes not tied to any claim (the
info line of duration/cycles/tools, debug prints, the thinking
indicator) and the persistence/audio hooks (fire-and-forget per §4.5)
are not part of the trace. -/

/-- The token-usage dict `{"input_tokens": ..., "output_tokens": ...}`
that `UsageExtractor.extract_token_usage` yields. -/
structure Usage where
  input_tokens : Int
  output_tokens : Int
deriving DecidableEq, Repr

/-- The mutable state owned by one `ResponseStreamer`: its session
state, its token tracker, and its own `total_input_tokens` /
`total_output_tokens` counters (initialized to 0 in `__init__`). -/
structure StreamerState where
  session : SessionState
  tracker : TokenTracker
  total_input_tokens : Int
  total_output_tokens : Int
deriving DecidableEq, Repr

/-- How one call to the agent's stream behaves: either it yields a list
of events and finishes, or it raises after yielding some events.  The
`err` case also stands for an exception from the blocking-call fallback
or from the Harmony post-processing step — every one of these is raised
before any session/tracker/counter mutation in the source and is caught
by the same `except` block. -/
inductive StreamOutcome (ε : Type) where
  | ok (events : List ε)
  | err (events : List ε) (msg : String)

/-- The observable result of one `stream_agent_response` call: the
returned dict (`duration`, `usage`), the successor streamer state, and
the terminal output traces (header, per-chunk streaming writes, the list
of `render_final_response` call results, and error lines). -/
structure CycleOutput where
  duration : Nat
  usage : Option Usage
  state : StreamerState
  header_render : List RenderOut
  streaming_renders : List RenderOut
  final_renders : List (List RenderOut)
  error_lines : List String
deriving Repr

/-- The event loop of `stream_agent_response` (lines 205–244): for each
event, `first_token_received` is set (on the first event, stopping the
thinking indicator), the event is fed to
`event_parser.parse_event`, and — only when the result is truthy, i.e.
non-`None` and non-empty — the text is appended to `response_text` and
passed to `render_streaming_text`.  Returns the final
`first_token_received` flag, the fragment list, and the streaming
render trace. -/
def processEvents {ε : Type} (parse : ε → Option String)
    (renderer : ResponseRenderer) :
    List ε → Bool → List String → List RenderOut →
      Bool × List String × List RenderOut
  | [], first_token_received, response_text, renders =>
      (first_token_received, response_text, renders)
  | e :: rest, _, response_text, renders =>
      match parse e with
      | some t =>
          if t = "" then processEvents parse renderer rest true response_text renders
          else
            processEvents parse renderer rest true (response_text ++ [t])
              (renders ++ renderer.render_streaming_text t)
      | none => processEvents parse renderer rest true response_text renders

/-- Lines 364–387 of `stream_agent_response`: apply an extracted usage
result to the session state and the token tracker.  A cumulative
(`is_accumulated`) record is turned into deltas by
`session.update_accumulated_usage` and the deltas are added only when at
least one of them is positive; a non-cumulative record is added
directly.  Returns the `usage_info` kept for the info line and the
transcript, with the successor session and tracker. -/
def applyUsageTracking (session : SessionState) (tracker : TokenTracker)
    (usage_result : Option (Usage × Bool)) :
    Option Usage × SessionState × TokenTracker :=
  match usage_result with
  | none => (none, session, tracker)
  | some (usage_info, is_accumulated) =>
      if is_accumulated then
        let r := session.update_accumulated_usage usage_info.input_tokens
          usage_info.output_tokens
        let delta_input := r.1.1
        let delta_output := r.1.2
        let tracker' :=
          if delta_input > 0 || delta_output > 0 then
            tracker.add_usage delta_input delta_output
          else tracker
        (some usage_info, r.2, tracker')
      else
        (some usage_info, session,
         tracker.add_usage usage_info.input_tokens usage_info.output_tokens)

/-- Lines 442–464: the markdown transcript entry for one query. -/
def mdEntry (query_num : Nat) (entry_timestamp query agent_name
    display_text : String) (duration : Nat) (usage_info : Option Usage) :
    List String :=
  let metadata_parts :=
    ["Time: " ++ toString duration ++ "s"] ++
      (match usage_info with
       | some u =>
           if u.input_tokens + u.output_tokens > 0 then
             ["Tokens: " ++ toString (u.input_tokens + u.output_tokens) ++
              " (in: " ++ toString u.input_tokens ++
              ", out: " ++ toString u.output_tokens ++ ")"]
           else []
       | none => [])
  ["\n## Query " ++ toString query_num ++ " (" ++ entry_timestamp ++ ")\n",
   "**You:** " ++ query ++ "\n\n",
   "**" ++ agent_name ++ ":** " ++ display_text ++ "\n\n",
   "*" ++ String.intercalate " | " metadata_parts ++ "*\n\n",
   "---\n"]

/-- `ResponseStreamer.stream_agent_response` for a streaming agent
(`hasattr(agent, "stream_async")`), as a pure function.  On the `ok`
path it follows lines 205–475 of the source; on the `err` path (an
exception anywhere in streaming, the blocking fallback, or Harmony
post-processing) it follows the `except` block of lines 477–490, which
prints the error lines and returns with `usage = None`, never having
touched the session state, the tracker, or the streamer counters. -/
def stream_agent_response {ε : Type} (parse : ε → Option String)
    (renderer : ResponseRenderer) (postprocess : Option (String → String))
    (extract_token_usage : Option ε → Option (Usage × Bool))
    (agent_name query entry_timestamp : String) (duration : Nat)
    (outcome : StreamOutcome ε) (st : StreamerState) : CycleOutput :=
  let header := renderer.render_agent_header
  match outcome with
  | StreamOutcome.err events msg =>
      let pe := processEvents parse renderer events false [] []
      { duration := duration
        usage := none
        state := st
        header_render := header
        streaming_renders := pe.2.2
        final_renders := []
        error_lines :=
          [agent_name ++ ": Query failed - " ++ msg,
           "Try rephrasing your question or check the logs for details."] }
  | StreamOutcome.ok events =>
      let pe := processEvents parse renderer events false [] []
      let first_token_received := pe.1
      let response_text := pe.2.1
      let streaming_renders := pe.2.2
      let response_obj := events.getLast?
      let full_response := String.join response_text
      let already_printed_streaming :=
        first_token_received && !renderer.should_skip_streaming_display
      let display_text :=
        match postprocess with
        | some f => f full_response
        | none => full_response
      let session := st.session.update_last_response display_text
      let final_renders :=
        if already_printed_streaming then []
        else [renderer.render_final_response display_text first_token_received]
      let usage_result := extract_token_usage response_obj
      let ut := applyUsageTracking session st.tracker usage_result
      let usage_info := ut.1
      let session := ut.2.1
      let tracker := ut.2.2
      let qc := session.increment_query_count
      let query_num := qc.1
      let session := qc.2
      let entry :=
        mdEntry query_num entry_timestamp query agent_name display_text
          duration usage_info
      let session :=
        { session with
            conversation_markdown := session.conversation_markdown ++ entry }
      let total_in :=
        match usage_info with
        | some u => st.total_input_tokens + u.input_tokens
        | none => st.total_input_tokens
      let total_out :=
        match usage_info with
        | some u => st.total_output_tokens + u.output_tokens
        | none => st.total_output_tokens
      { duration := duration
        usage := usage_info
        state :=
          { session := session
            tracker := tracker
            total_input_tokens := total_in
            total_output_tokens := total_out }
        header_render := header
        streaming_renders := streaming_renders
        final_renders := final_renders
        error_lines := [] }

/-! ## usage_extractor.py (absent from src/; modelled from the spec) -/

/-- Modelled from the spec: a raw token-count field value in a usage
payload, before coercion to `int` (§4.2: "All numeric fields are coerced
to `int` (accepting numeric strings and floats via truncation)").  A
float is represented by its already-truncated integer value via `int`;
`null` stands for Python `None`; `bad` for a value `int()` rejects (a
non-numeric string, a list, ...). -/
inductive TokenVal where
  | int (n : Int)
  | str (s : String)
  | null
  | bad
deriving DecidableEq, Repr

/-- Modelled from the spec: coercion of one optional token field to
`int`.  A missing field, `None`, a non-numeric string, or an
uncoercible value all fail (§4.2: "if coercion fails for a required
field, extraction fails for that path"). -/
def coerceField : Option TokenVal → Option Int
  | some (TokenVal.int n) => some n
  | some (TokenVal.str s) => s.toInt?
  | some TokenVal.null => none
  | some TokenVal.bad => none
  | none => none

/-- Modelled from the spec: the token fields a direct/metadata/streaming
usage object or mapping may carry — the snake_case pair, the OpenAI
pair, and the camelCase pair, mixed naming allowed (§4.2 path 2 and
`test_usage_extractor.py::TestTokenFieldVariations`). -/
structure UsageFields where
  input_tokens : Option TokenVal
  output_tokens : Option TokenVal
  prompt_tokens : Option TokenVal
  completion_tokens : Option TokenVal
  inputTokens : Option TokenVal
  outputTokens : Option TokenVal
deriving DecidableEq, Repr

/-- Modelled from the spec: resolve the input-token field of a usage
object, first match wins across the accepted spellings. -/
def resolveInputField (f : UsageFields) : Option TokenVal :=
  (f.input_tokens.orElse fun _ => f.inputTokens).orElse fun _ => f.prompt_tokens

/-- Modelled from the spec: resolve the output-token field of a usage
object, first match wins across the accepted spellings. -/
def resolveOutputField (f : UsageFields) : Option TokenVal :=
  (f.output_tokens.orElse fun _ => f.outputTokens).orElse fun _ =>
    f.completion_tokens

/-- Modelled from the spec: the `accumulated_usage` payload at
`response.result.metrics.accumulated_usage` (object or mapping form),
carrying camelCase `inputTokens`/`outputTokens`. -/
structure AccumulatedUsage where
  inputTokens : Option TokenVal
  outputTokens : Option TokenVal
deriving DecidableEq, Repr

/-- Modelled from the spec: the shape of a response/event as the usage
extractor probes it — each extraction path's payload is `none` when any
link of its attribute chain is missing (§4.2 paths 1–4). -/
structure UsageResponse where
  accumulated_usage : Option AccumulatedUsage
  usage : Option UsageFields
  metadata_usage : Option UsageFields
  data_usage : Option UsageFields
deriving DecidableEq, Repr

/-- Modelled from the spec: try one direct-style usage payload (paths
2–4), requiring both resolved fields to coerce. -/
def tryUsageFields (f : UsageFields) : Option Usage :=
  match coerceField (resolveInputField f), coerceField (resolveOutputField f) with
  | some i, some o => some { input_tokens := i, output_tokens := o }
  | _, _ => none

/-- Modelled from the spec: `UsageExtractor.extract_token_usage`
(source file absent; contract in §4.2 and
`test_usage_extractor.py`).  Paths in fixed priority order: (1) the
cumulative `accumulated_usage` payload (`is_cumulative = true`), (2) the
direct `usage` payload, (3) the metadata-nested payload, (4) the
streaming-event `data.usage` payload (each `is_cumulative = false`); a
path whose required fields fail to coerce is skipped.  A record whose
two counts both resolve to zero is treated as "no usage": the extractor
returns `none`, never a zero-valued record. -/
def extract_token_usage (r : UsageResponse) : Option (Usage × Bool) :=
  let path1 : Option (Usage × Bool) :=
    match r.accumulated_usage with
    | some au =>
        match coerceField au.inputTokens, coerceField au.outputTokens with
        | some i, some o => some ({ input_tokens := i, output_tokens := o }, true)
        | _, _ => none
    | none => none
  let direct : Option (Usage × Bool) :=
    (r.usage.bind fun f => (tryUsageFields f).map fun u => (u, false))
  let meta : Option (Usage × Bool) :=
    (r.metadata_usage.bind fun f => (tryUsageFields f).map fun u => (u, false))
  let stream : Option (Usage × Bool) :=
    (r.data_usage.bind fun f => (tryUsageFields f).map fun u => (u, false))
  match ((path1.orElse fun _ => direct).orElse fun _ => meta).orElse
      fun _ => stream with
  | some (u, flag) =>
      if u.input_tokens = 0 ∧ u.output_tokens = 0 then none
      else some (u, flag)
  | none => none

/-! ## streaming_event_parser.py (absent from src/; modelled from the spec) -/

/-- Modelled from the spec: the opaque value a provider's stream yields,
as the parser's duck typing distinguishes it (§3): a raw string, a
mapping, an object with attributes, a number, a sequence, or `None`.
Mappings do not expose their keys as attributes, and only the shapes of
§3 are probed. -/
inductive PyVal where
  | vstr (s : String)
  | vint (n : Int)
  | vlist (xs : List PyVal)
  | vdict (entries : List (String × PyVal))
  | vobj (attrs : List (String × PyVal))
  | vnone

/-- Modelled from the spec: mapping lookup on a `PyVal` dict payload. -/
def dictGet (entries : List (String × PyVal)) (key : String) : Option PyVal :=
  entries.lookup key

/-- Modelled from the spec: scan a `content` sequence for the first
block carrying a string `text` entry, silently skipping the others
(§4.1: "a sequence is scanned for the first element exposing `text`
(others silently skipped)"). -/
def firstBlockText : List PyVal → Option String
  | [] => none
  | PyVal.vdict d :: rest =>
      match dictGet d "text" with
      | some (PyVal.vstr t) => some t
      | _ => firstBlockText rest
  | _ :: rest => firstBlockText rest

/-- Modelled from the spec: `StreamingEventParser.parse_event` (source
file absent; contract in §3/§4.1 and
`test_streaming_event_parser.py`).  Shapes in fixed priority order:
(1) a raw string is returned verbatim (the empty string included);
(2) a mapping with the nested `event.contentBlockDelta.delta.text` path;
(3) a mapping with a top-level string `text` key;
(4) an object with a `data` attribute — a string, a mapping with `text`,
    or a mapping with `content` as a string or as a block sequence
    (`text` taking priority over `content`);
(5) an object with a `delta` attribute — a string, a mapping with
    `text`, or an object with a `text` attribute;
(6) an object with a direct string `text` attribute.
Everything else — `None`, numbers, sequences, objects with none of the
recognized attributes — yields `none`; the function is total, so it can
never raise. -/
def parse_event (event : PyVal) : Option String :=
  match event with
  | PyVal.vstr s => some s
  | PyVal.vdict entries =>
      (match dictGet entries "event" with
       | some (PyVal.vdict ev) =>
           (match dictGet ev "contentBlockDelta" with
            | some (PyVal.vdict cbd) =>
                (match dictGet cbd "delta" with
                 | some (PyVal.vdict d) =>
                     (match dictGet d "text" with
                      | some (PyVal.vstr t) => some t
                      | _ => none)
                 | _ => none)
            | _ => none)
       | _ =>
           match dictGet entries "text" with
           | some (PyVal.vstr t) => some t
           | _ => none)
  | PyVal.vobj attrs =>
      (match attrs.lookup "data" with
       | some (PyVal.vstr s) => some s
       | some (PyVal.vdict d) =>
           (match dictGet d "text" with
            | some (PyVal.vstr t) => some t
            | _ =>
                match dictGet d "content" with
                | some (PyVal.vstr c) => some c
                | some (PyVal.vlist blocks) => firstBlockText blocks
                | _ => none)
       | some _ => none
       | none =>
           match attrs.lookup "delta" with
           | some (PyVal.vstr s) => some s
           | some (PyVal.vdict d) =>
               (match dictGet d "text" with
                | some (PyVal.vstr t) => some t
                | _ => none)
           | some (PyVal.vobj dattrs) =>
               (match dattrs.lookup "text" with
                | some (PyVal.vstr t) => some t
                | _ => none)
           | some _ => none
           | none =>
               match attrs.lookup "text" with
               | some (PyVal.vstr t) => some t
               | _ => none)
  | _ => none

/-! ## Theorems -/

/-- Claim C1, counterexample: with detailed mode off, a processed
response whose channel dict maps "final" to the empty string and whose
raw text is "hello" makes `format_for_display` return `""`, not the raw
text — `dict.get("final", text)` finds the present (empty) value, so the
mandated fallback to the raw text does not happen. -/
theorem c1_empty_final_channel_counterexample :
    HarmonyProcessor.format_for_display false
      { text := "hello", has_reasoning := false, has_tools := false,
        channels := [("final", "")] } = "" ∧ ("hello" : String) ≠ "" := by
  constructor
  · rfl
  · decide

/-- Claim C1, amended: with detailed mode off, `format_for_display`
returns the `final` channel's content whenever the key "final" is
present — even when that content is the empty string, which is returned
verbatim and suppresses the raw text — and falls back to the raw text
only when the key is absent, in which case the result is the raw text
itself (so it is non-empty whenever the raw text is). -/
theorem c1_format_for_display_final_channel (pr : ProcessedResponse) :
    (∀ v, channelsGet pr.channels "final" = some v →
      HarmonyProcessor.format_for_display false pr = v) ∧
    (channelsGet pr.channels "final" = none →
      HarmonyProcessor.format_for_display false pr = pr.text) := by
  unfold HarmonyProcessor.format_for_display
  constructor
  · intro v h
    simp [h]
  · intro h
    simp [h]

/-- Witness for `c1_format_for_display_final_channel` at a concrete
processed response whose "final" channel holds "ans". -/
theorem c1_format_for_display_final_channel_witness :
    HarmonyProcessor.format_for_display false
      { text := "raw", has_reasoning := false, has_tools := false,
        channels := [("final", "ans")] } = "ans" :=
  (c1_format_for_display_final_channel _).1 "ans" (by decide)

/-- Claim C7: the renderer's output state, computed once at
construction by `determine_output_state`, is BUFFERING iff at least one
of the two capability flags (Rich console present, Harmony post-processor
present) is set, else STREAMING; and `should_skip_streaming_display`
returns true exactly when the state is BUFFERING.  (In this embedding
the renderer is an immutable value, so the state trivially never changes
after construction.) -/
theorem c7_output_state_rule {γ η : Type} (agent_name : String)
    (console : Option γ) (harmony_processor : Option η) :
    ((ResponseRenderer.init agent_name console harmony_processor).output_state
        = OutputState.BUFFERING ↔
      (console.isSome = true ∨ harmony_processor.isSome = true)) ∧
    ((ResponseRenderer.init agent_name console harmony_processor).output_state
        = OutputState.STREAMING ↔
      ¬(console.isSome = true ∨ harmony_processor.isSome = true)) ∧
    ∀ r : ResponseRenderer,
      (r.should_skip_streaming_display = true ↔
        r.output_state = OutputState.BUFFERING) := by
  refine ⟨?_, ?_, ?_⟩
  · cases console <;> cases harmony_processor <;>
      simp [ResponseRenderer.init, determine_output_state]
  · cases console <;> cases harmony_processor <;>
      simp [ResponseRenderer.init, determine_output_state]
  · intro r
    cases h : r.output_state <;>
      simp [ResponseRenderer.should_skip_streaming_display,
        OutputState.should_buffer, h]

/-- Claim C8: `render_final_response` writes nothing iff the display
text strips to empty (Python `strip()`); on non-blank text the visual separator is printed
iff the streaming-occurred flag is true and the output state is
BUFFERING — in particular in STREAMING state no separator is ever
printed. -/
theorem c8_render_final_separator (r : ResponseRenderer)
    (display_text : String) (first_token_received : Bool) :
    (r.render_final_response display_text first_token_received = [] ↔
      pystrip display_text = "") ∧
    (RenderOut.separator ∈
        r.render_final_response display_text first_token_received ↔
      (pystrip display_text ≠ "" ∧ first_token_received = true ∧
        r.output_state = OutputState.BUFFERING)) ∧
    (r.output_state = OutputState.STREAMING →
      RenderOut.separator ∉
        r.render_final_response display_text first_token_received) := by
  refine ⟨?_, ?_, ?_⟩
  · by_cases h : pystrip display_text = "" <;>
      cases hc : r.console_present <;>
      simp [ResponseRenderer.render_final_response, h, hc]
  · by_cases h : pystrip display_text = "" <;>
      cases hc : r.console_present <;>
      cases hf : first_token_received <;>
      cases hs : r.output_state <;>
      simp [ResponseRenderer.render_final_response, h, hc, hf, hs,
        OutputState.should_buffer]
  · intro hs
    by_cases h : pystrip display_text = "" <;>
      cases hc : r.console_present <;>
      cases hf : first_token_received <;>
      simp [ResponseRenderer.render_final_response, h, hc, hf, hs,
        OutputState.should_buffer]

/-- Witness for `c8_render_final_separator`: a BUFFERING renderer with
non-blank text and the streaming-occurred flag set does print the
separator. -/
theorem c8_render_final_separator_witness :
    RenderOut.separator ∈
      (ResponseRenderer.init "A" (some ()) (none : Option Unit)
        ).render_final_response "hi" true :=
  (c8_render_final_separator _ "hi" true).2.1.mpr ⟨by decide, rfl, rfl⟩

/-- Helper: the `first_token_received` flag produced by the event loop
is true iff it started true or at least one event arrived — whether any
event parsed to text plays no role, because the source sets the flag on
every event before parsing it. -/
theorem processEvents_flag {ε : Type} (parse : ε → Option String)
    (renderer : ResponseRenderer) (events : List ε) (b : Bool)
    (rt : List String) (rd : List RenderOut) :
    (processEvents parse renderer events b rt rd).1 =
      (b || !events.isEmpty) := by
  induction events generalizing b rt rd with
  | nil => simp [processEvents]
  | cons e rest ih =>
      simp only [processEvents]
      cases h : parse e with
      | none => simp [ih]
      | some t =>
          by_cases ht : t = "" <;> simp [ht, ih]

/-- Claim C2, amended: in every query cycle the de-duplication flag
`already_printed_streaming` equals (at least one EVENT arrived —
regardless of whether any event parsed to a non-`None` fragment) AND NOT
`should_skip_streaming_display()`, and `render_final_response` is called
exactly once iff that flag is false. -/
theorem c2_final_render_exactly_once {ε : Type} (parse : ε → Option String)
    (renderer : ResponseRenderer) (postprocess : Option (String → String))
    (extract : Option ε → Option (Usage × Bool))
    (agent_name query entry_timestamp : String) (duration : Nat)
    (events : List ε) (st : StreamerState) :
    (stream_agent_response parse renderer postprocess extract agent_name
        query entry_timestamp duration (StreamOutcome.ok events)
        st).final_renders.length =
      (if (!events.isEmpty) && !renderer.should_skip_streaming_display
       then 0 else 1) := by
  simp only [stream_agent_response]
  simp only [processEvents_flag]
  by_cases he : events.isEmpty <;>
    by_cases hs : renderer.should_skip_streaming_display <;>
      simp [he, hs]

/-- Claim C2, counterexample: one event arrives but parses to `None`
(so no fragment at all), with a plain-text STREAMING renderer.  The code
sets `first_token_received` on event arrival alone, so the flag is true
and `render_final_response` is never called (zero calls), while the
claim's flag — at least one fragment AND NOT skip — is false and demands
exactly one call. -/
theorem c2_no_fragment_counterexample :
    ((fun _ => (none : Option String)) () = none) ∧
    (ResponseRenderer.init "A" (none : Option Unit)
        (none : Option Unit)).should_skip_streaming_display = false ∧
    (stream_agent_response (fun _ => (none : Option String))
        (ResponseRenderer.init "A" (none : Option Unit) (none : Option Unit))
        none (fun _ => none) "A" "q" "t" 0 (StreamOutcome.ok [()])
        { session :=
            { query_count := 0, last_accumulated_input := 0,
              last_accumulated_output := 0, conversation_markdown := [],
              last_query := "", last_response := "" },
          tracker := { total_input_tokens := 0, total_output_tokens := 0 },
          total_input_tokens := 0,
          total_output_tokens := 0 }).final_renders.length = 0 := by
  refine ⟨rfl, rfl, rfl⟩

/-- Claim C4: when the agent's stream (or the blocking fallback or the
post-processing step) raises, `stream_agent_response` catches the
exception and returns a result carrying the elapsed duration and
`usage = None`; it prints the user-visible error lines, appends no
transcript entry, does not increment the query count, and leaves the
session state, the token tracker and the streamer counters exactly as
they were, so the next query proceeds from an uncorrupted state. -/
theorem c4_exception_recovery {ε : Type} (parse : ε → Option String)
    (renderer : ResponseRenderer) (postprocess : Option (String → String))
    (extract : Option ε → Option (Usage × Bool))
    (agent_name query entry_timestamp : String) (duration : Nat)
    (events : List ε) (msg : String) (st : StreamerState) :
    (stream_agent_response parse renderer postprocess extract agent_name
        query entry_timestamp duration (StreamOutcome.err events msg)
        st).usage = none ∧
    (stream_agent_response parse renderer postprocess extract agent_name
        query entry_timestamp duration (StreamOutcome.err events msg)
        st).duration = duration ∧
    (stream_agent_response parse renderer postprocess extract agent_name
        query entry_timestamp duration (StreamOutcome.err events msg)
        st).state = st ∧
    (stream_agent_response parse renderer postprocess extract agent_name
        query entry_timestamp duration (StreamOutcome.err events msg)
        st).error_lines ≠ [] ∧
    (stream_agent_response parse renderer postprocess extract agent_name
        query entry_timestamp duration (StreamOutcome.err events msg)
        st).final_renders = [] := by
  refine ⟨rfl, rfl, rfl, ?_, rfl⟩
  simp [stream_agent_response]

/-- A plain-text renderer (no Rich console, no Harmony processor):
output state STREAMING. -/
def plainRenderer : ResponseRenderer :=
  ResponseRenderer.init "A" (none : Option Unit) (none : Option Unit)

/-- A session state whose only non-trivial content is the last-seen
cumulative totals. -/
def sessionWithLast (i o : Int) : SessionState :=
  { query_count := 0, last_accumulated_input := i,
    last_accumulated_output := o, conversation_markdown := [],
    last_query := "", last_response := "" }

/-- A streamer state with zeroed tracker and counters and the given
last-seen cumulative totals. -/
def stWithLast (i o : Int) : StreamerState :=
  { session := sessionWithLast i o,
    tracker := { total_input_tokens := 0, total_output_tokens := 0 },
    total_input_tokens := 0, total_output_tokens := 0 }

/-- Claim C3, amended: for a usage record with `is_cumulative` true, the
cycle computes the deltas of the reported cumulative totals against the
session's last-seen totals and stores the reported totals as the new
last-seen values; the deltas — negative components included — are added
verbatim to the running token totals if and only if at least one of the
two deltas is positive, and when both deltas are ≤ 0 the tracker update
is skipped entirely (totals unchanged). -/
theorem c3_cumulative_delta_application {ε : Type}
    (parse : ε → Option String) (renderer : ResponseRenderer)
    (postprocess : Option (String → String))
    (extract : Option ε → Option (Usage × Bool))
    (agent_name query entry_timestamp : String) (duration : Nat)
    (events : List ε) (st : StreamerState) (u : Usage)
    (h : extract events.getLast? = some (u, true)) :
    ((u.input_tokens - st.session.last_accumulated_input > 0 ∨
      u.output_tokens - st.session.last_accumulated_output > 0) →
      (stream_agent_response parse renderer postprocess extract agent_name
          query entry_timestamp duration (StreamOutcome.ok events)
          st).state.tracker.total_input_tokens =
        st.tracker.total_input_tokens +
          (u.input_tokens - st.session.last_accumulated_input) ∧
      (stream_agent_response parse renderer postprocess extract agent_name
          query entry_timestamp duration (StreamOutcome.ok events)
          st).state.tracker.total_output_tokens =
        st.tracker.total_output_tokens +
          (u.output_tokens - st.session.last_accumulated_output)) ∧
    ((u.input_tokens - st.session.last_accumulated_input ≤ 0 ∧
      u.output_tokens - st.session.last_accumulated_output ≤ 0) →
      (stream_agent_response parse renderer postprocess extract agent_name
          query entry_timestamp duration (StreamOutcome.ok events)
          st).state.tracker = st.tracker) ∧
    (stream_agent_response parse renderer postprocess extract agent_name
        query entry_timestamp duration (StreamOutcome.ok events)
        st).state.session.last_accumulated_input = u.input_tokens ∧
    (stream_agent_response parse renderer postprocess extract agent_name
        query entry_timestamp duration (StreamOutcome.ok events)
        st).state.session.last_accumulated_output = u.output_tokens := by
  simp only [stream_agent_response, h, applyUsageTracking,
    SessionState.update_accumulated_usage, SessionState.update_last_response,
    SessionState.increment_query_count, TokenTracker.add_usage]
  by_cases h1 : u.input_tokens - st.session.last_accumulated_input > 0 <;>
    by_cases h2 : u.output_tokens - st.session.last_accumulated_output > 0 <;>
      simp [h1, h2] <;> omega

/-- Witness for `c3_cumulative_delta_application`: last-seen totals
(100, 50), reported cumulative totals (150, 40) — the input delta 50 is
positive, so both deltas are applied verbatim and the output total ends
at 0 + (40 - 50) = -10, a negative running total. -/
theorem c3_cumulative_delta_application_witness :
    (stream_agent_response (fun _ => (none : Option String)) plainRenderer
        none
        (fun _ => some ({ input_tokens := 150, output_tokens := 40 }, true))
        "A" "q" "t" 0 (StreamOutcome.ok [()])
        (stWithLast 100 50)).state.tracker.total_output_tokens =
      0 + ((40 : Int) - 50) :=
  ((c3_cumulative_delta_application (fun _ => (none : Option String))
      plainRenderer none
      (fun _ => some ({ input_tokens := 150, output_tokens := 40 }, true))
      "A" "q" "t" 0 [()] (stWithLast 100 50)
      { input_tokens := 150, output_tokens := 40 } rfl).1
    (Or.inl (by decide))).2

/-- Claim C3, counterexample: last-seen totals (100, 50), reported
cumulative totals (90, 40) — both deltas are negative, the
`if delta_input > 0 or delta_output > 0` guard fails, and the tracker is
left untouched at 0 instead of receiving the verbatim negative delta
0 + (90 - 100) = -10 the claim mandates. -/
theorem c3_negative_delta_counterexample :
    (stream_agent_response (fun _ => (none : Option String)) plainRenderer
        none
        (fun _ => some ({ input_tokens := 90, output_tokens := 40 }, true))
        "A" "q" "t" 0 (StreamOutcome.ok [()])
        (stWithLast 100 50)).state.tracker.total_input_tokens = 0 ∧
    (0 : Int) ≠ 0 + ((90 : Int) - 100) := by
  refine ⟨rfl, by decide⟩

/-- Claim C10: for a completed query whose usage record is cumulative,
the streamer's own transcript-metadata counters `total_input_tokens` /
`total_output_tokens` are incremented by the raw reported usage values —
the full cumulative totals — not by the computed deltas. -/
theorem c10_streamer_counters_raw {ε : Type} (parse : ε → Option String)
    (renderer : ResponseRenderer) (postprocess : Option (String → String))
    (extract : Option ε → Option (Usage × Bool))
    (agent_name query entry_timestamp : String) (duration : Nat)
    (events : List ε) (st : StreamerState) (u : Usage)
    (h : extract events.getLast? = some (u, true)) :
    (stream_agent_response parse renderer postprocess extract agent_name
        query entry_timestamp duration (StreamOutcome.ok events)
        st).state.total_input_tokens =
      st.total_input_tokens + u.input_tokens ∧
    (stream_agent_response parse renderer postprocess extract agent_name
        query entry_timestamp duration (StreamOutcome.ok events)
        st).state.total_output_tokens =
      st.total_output_tokens + u.output_tokens := by
  simp only [stream_agent_response, h, applyUsageTracking]
  by_cases h1 :
      u.input_tokens -
        (st.session.update_last_response
          (match postprocess with
           | some f =>
               f (String.join (processEvents parse renderer events false [] []).2.1)
           | none =>
               String.join (processEvents parse renderer events false [] []).2.1)
          ).last_accumulated_input > 0 <;>
    simp [SessionState.update_accumulated_usage,
      SessionState.update_last_response, h1]

/-- The first demo cycle against a cumulative provider: reported
cumulative totals (100, 40) on a fresh streamer state. -/
def demoCycle1 : CycleOutput :=
  stream_agent_response (fun _ => (none : Option String)) plainRenderer none
    (fun _ => some ({ input_tokens := 100, output_tokens := 40 }, true))
    "A" "q" "t" 0 (StreamOutcome.ok [()]) (stWithLast 0 0)

/-- The second demo cycle: the same provider now reports cumulative
totals (150, 60); run on the state `demoCycle1` left behind. -/
def demoCycle2 : CycleOutput :=
  stream_agent_response (fun _ => (none : Option String)) plainRenderer none
    (fun _ => some ({ input_tokens := 150, output_tokens := 60 }, true))
    "A" "q" "t" 0 (StreamOutcome.ok [()]) demoCycle1.state

/-- Witness for `c10_streamer_counters_raw`: the first demo cycle adds
the full reported 100 input tokens to the streamer counter; after the
second cycle the streamer counter holds 100 + 150 = 250 while the
delta-accumulated tracker holds 150 — the two run apart. -/
theorem c10_streamer_counters_raw_witness :
    demoCycle1.state.total_input_tokens = 0 + 100 ∧
    demoCycle2.state.total_input_tokens = 250 ∧
    demoCycle2.state.tracker.total_input_tokens = 150 ∧
    (250 : Int) ≠ 150 :=
  ⟨(c10_streamer_counters_raw (fun _ => (none : Option String))
      plainRenderer none
      (fun _ => some ({ input_tokens := 100, output_tokens := 40 }, true))
      "A" "q" "t" 0 [()] (stWithLast 0 0)
      { input_tokens := 100, output_tokens := 40 } rfl).1,
   by decide, by decide, by decide⟩

/-- Claim C6: the cumulative delta law.  Feeding cumulative readings
`u1 ≤ u2 ≤ u3` (componentwise) to
`SessionState.update_accumulated_usage`, the successive deltas — the
ones returned for `u2` and for `u3` once `u1` has been recorded —
telescope: their sum equals `u3 - u1`, for the input and the output
counts alike. -/
theorem c6_cumulative_delta_telescoping (s : SessionState)
    (u1i u1o u2i u2o u3i u3o : Int)
    (_h1 : u1i ≤ u2i) (_h2 : u2i ≤ u3i) (_h3 : u1o ≤ u2o) (_h4 : u2o ≤ u3o) :
    (((s.update_accumulated_usage u1i u1o).2.update_accumulated_usage
        u2i u2o).1.1 +
      ((((s.update_accumulated_usage u1i u1o).2.update_accumulated_usage
        u2i u2o).2).update_accumulated_usage u3i u3o).1.1 = u3i - u1i) ∧
    (((s.update_accumulated_usage u1i u1o).2.update_accumulated_usage
        u2i u2o).1.2 +
      ((((s.update_accumulated_usage u1i u1o).2.update_accumulated_usage
        u2i u2o).2).update_accumulated_usage u3i u3o).1.2 = u3o - u1o) := by
  simp only [SessionState.update_accumulated_usage]
  constructor <;> ring

/-- Witness for `c6_cumulative_delta_telescoping` at the readings
(100, 50) ≤ (200, 100) ≤ (350, 175) from a fresh session. -/
theorem c6_cumulative_delta_telescoping_witness :
    ((sessionWithLast 0 0).update_accumulated_usage 100
        50).2.update_accumulated_usage 200 100 |>.1.1 +
      (((((sessionWithLast 0 0).update_accumulated_usage 100
        50).2.update_accumulated_usage 200 100).2).update_accumulated_usage
        350 175).1.1 = (350 : Int) - 100 :=
  (c6_cumulative_delta_telescoping (sessionWithLast 0 0) 100 50 200 100 350
    175 (by decide) (by decide) (by decide) (by decide)).1

/-- Claim C5: `extract_token_usage` never yields a record whose two
token counts are both zero — such payloads resolve to `none` (absence) —
while a payload whose counts have exactly one nonzero value still
yields a record (with `is_cumulative = false` on the direct-usage
path). -/
theorem c5_zero_zero_yields_none :
    (∀ (r : UsageResponse) (u : Usage) (flag : Bool),
      extract_token_usage r = some (u, flag) →
      ¬(u.input_tokens = 0 ∧ u.output_tokens = 0)) ∧
    (∀ i o : Int, ((i = 0 ∧ o ≠ 0) ∨ (i ≠ 0 ∧ o = 0)) →
      extract_token_usage
        { accumulated_usage := none,
          usage := some
            { input_tokens := some (TokenVal.int i),
              output_tokens := some (TokenVal.int o),
              prompt_tokens := none, completion_tokens := none,
              inputTokens := none, outputTokens := none },
          metadata_usage := none, data_usage := none } =
        some ({ input_tokens := i, output_tokens := o }, false)) := by
  constructor
  · intro r u flag h
    simp only [extract_token_usage] at h
    split at h
    · next u0 flag0 heq =>
        split at h
        · exact absurd h (by simp)
        · next hcond =>
            injection h with h1
            injection h1 with hu hf
            subst hu
            exact hcond
    · exact absurd h (by simp)
  · intro i o h
    rcases h with ⟨hi, ho⟩ | ⟨hi, ho⟩ <;>
      simp [extract_token_usage, tryUsageFields, resolveInputField,
        resolveOutputField, coerceField, Option.orElse, hi, ho]

/-- Witness for `c5_zero_zero_yields_none`: the payload
`usage = (input_tokens = 100, output_tokens = 0)` — exactly one nonzero
count — still yields the record (100, 0), not absence. -/
theorem c5_zero_zero_yields_none_witness :
    extract_token_usage
      { accumulated_usage := none,
        usage := some
          { input_tokens := some (TokenVal.int 100),
            output_tokens := some (TokenVal.int 0),
            prompt_tokens := none, completion_tokens := none,
            inputTokens := none, outputTokens := none },
        metadata_usage := none, data_usage := none } =
      some ({ input_tokens := 100, output_tokens := 0 }, false) :=
  c5_zero_zero_yields_none.2 100 0 (Or.inr ⟨by decide, rfl⟩)

/-- Claim C9: `parse_event` is a total function (so it can never raise),
each of the six recognized shapes yields its extracted text — the empty
string returned verbatim — and every other input, `None`, numbers,
sequences and objects with none of the recognized attributes included,
yields `none`. -/
theorem c9_parse_event_total_and_shaped :
    (∀ s, parse_event (PyVal.vstr s) = some s) ∧
    (parse_event (PyVal.vstr "") = some "") ∧
    (∀ t, parse_event (PyVal.vdict [("event", PyVal.vdict
        [("contentBlockDelta", PyVal.vdict
          [("delta", PyVal.vdict [("text", PyVal.vstr t)])])])]) = some t) ∧
    (∀ t, parse_event (PyVal.vdict [("text", PyVal.vstr t)]) = some t) ∧
    (∀ s, parse_event (PyVal.vobj [("data", PyVal.vstr s)]) = some s) ∧
    (∀ t, parse_event (PyVal.vobj
        [("data", PyVal.vdict [("text", PyVal.vstr t)])]) = some t) ∧
    (∀ s, parse_event (PyVal.vobj [("delta", PyVal.vstr s)]) = some s) ∧
    (∀ t, parse_event (PyVal.vobj
        [("delta", PyVal.vobj [("text", PyVal.vstr t)])]) = some t) ∧
    (∀ t, parse_event (PyVal.vobj [("text", PyVal.vstr t)]) = some t) ∧
    (parse_event PyVal.vnone = none) ∧
    (∀ n, parse_event (PyVal.vint n) = none) ∧
    (∀ xs, parse_event (PyVal.vlist xs) = none) ∧
    (∀ attrs, attrs.lookup "data" = none → attrs.lookup "delta" = none →
      attrs.lookup "text" = none → parse_event (PyVal.vobj attrs) = none) := by
  refine ⟨fun s => rfl, rfl, fun t => rfl, fun t => rfl, fun s => rfl,
    fun t => rfl, fun s => rfl, fun t => rfl, fun t => rfl, rfl,
    fun n => rfl, fun xs => rfl, ?_⟩
  intro attrs h1 h2 h3
  simp [parse_event, h1, h2, h3]

/-- Witness for `c9_parse_event_total_and_shaped`: an object with a
single unrecognized attribute parses to `none`. -/
theorem c9_parse_event_total_and_shaped_witness :
    parse_event (PyVal.vobj [("other", PyVal.vstr "x")]) = none :=
  c9_parse_event_total_and_shaped.2.2.2.2.2.2.2.2.2.2.2.2
    [("other", PyVal.vstr "x")] rfl rfl rfl
